import Mathlib

/-!
Verification of the skaffold build orchestration engine against its
specification.  The Go source is shallowly embedded: external collaborators
(cluster API, image daemon, external build tools, file system) are modelled as
oracles recorded in environment structures, and each embedded function returns
its Go results together with a trace of the observable events the claims talk
about (cleanup execution, log draining, tool invocation).
-/

namespace Skaffold

/-- Message shape produced by errors.Wrap from github.com/pkg/errors:
the wrapping message, a colon and a space, then the cause's message. -/
def wrapErr (m e : String) : String := m ++ ": " ++ e

instance {α β : Type} [DecidableEq α] [DecidableEq β] : DecidableEq (Except α β) := fun x y =>
  match x, y with
  | .ok a, .ok b =>
    if h : a = b then isTrue (by rw [h]) else isFalse (fun hh => h (Except.ok.inj hh))
  | .error a, .error b =>
    if h : a = b then isTrue (by rw [h]) else isFalse (fun hh => h (Except.error.inj hh))
  | .ok _, .error _ => isFalse (fun h => Except.noConfusion h)
  | .error _, .ok _ => isFalse (fun h => Except.noConfusion h)

/-! ## Remote (Kaniko) build session

Embedding of `Builder.Build` and `Builder.buildArtifactWithKaniko` from
pkg/skaffold/build/kaniko.  Each fallible external call is an oracle field of
`KanikoEnv`; `none` / `Except.ok` means the call succeeded. -/

/-- Oracle results for the external calls one Kaniko session performs. -/
structure KanikoEnv where
  /-- b.setupSecret error, performed in Build before dispatching artifacts. -/
  setupSecretErr : Option String
  /-- s.Setup result: the build-context location, or an error. -/
  setupContext : Except String String
  /-- kubernetes.GetClientset error. -/
  clientsetErr : Option String
  /-- pods.Create error. -/
  createPodErr : Option String
  /-- s.ModifyPod error. -/
  modifyPodErr : Option String
  /-- kubernetes.WaitForPodComplete error. -/
  waitErr : Option String
  /-- pods.Delete error, hit inside the deferred deletion handler. -/
  deletePodErr : Option String
  /-- docker.FullRemoteReference result for the built image. -/
  remoteReference : Except String String
deriving DecidableEq

/-- Observable events of one session, in the order they happen. -/
inductive KEvent
  /-- streamLogs was started (background log copy). -/
  | streamLogsStarted
  /-- waitForLogs() was called, i.e. the log copy was drained. -/
  | waitForLogsCalled
  /-- the deferred pods.Delete was attempted. -/
  | podDeleteAttempted
  /-- the deferred s.Cleanup ran. -/
  | contextCleanup
  /-- the deferred secret teardown from Build ran. -/
  | secretTeardown
deriving DecidableEq

/-- How control leaves the session: a normal Go return of (string, error), or
process termination via logrus.Fatalf (which calls os.Exit and therefore skips
every deferred function still pending). -/
inductive SessionOutcome
  | returned (ref : String) (err : Option String)
  | fatalExit (msg : String)
deriving DecidableEq

/-- Deferred functions of buildArtifactWithKaniko that are pending once the pod
exists, run in LIFO order: first the pod-deletion closure (logrus.Fatalf on
deletion error, ending the process before any later defer), then s.Cleanup. -/
def runPodDefers (env : KanikoEnv) (ref : String) (err : Option String)
    (evts : List KEvent) : SessionOutcome × List KEvent :=
  match env.deletePodErr with
  | some e => (.fatalExit ("deleting pod: " ++ e), evts ++ [.podDeleteAttempted])
  | none => (.returned ref err, evts ++ [.podDeleteAttempted, .contextCleanup])

/-- Embedding of Builder.buildArtifactWithKaniko.  Mirrors the source's
control flow: context setup, clientset, pod creation, pod modification, log
streaming, completion wait, log drain, remote-reference resolution, with the
deferred cleanups replayed on each exit path. -/
def buildArtifactWithKaniko (env : KanikoEnv) : SessionOutcome × List KEvent :=
  match env.setupContext with
  | .error e => (.returned "" (some (wrapErr "setting up build context" e)), [])
  | .ok _ctx =>
    match env.clientsetErr with
    | some e => (.returned "" (some (wrapErr "" e)), [.contextCleanup])
    | none =>
      match env.createPodErr with
      | some e => (.returned "" (some (wrapErr "creating kaniko pod" e)), [.contextCleanup])
      | none =>
        match env.modifyPodErr with
        | some e => runPodDefers env "" (some (wrapErr "modifying kaniko pod" e)) []
        | none =>
          match env.waitErr with
          | some e =>
            runPodDefers env "" (some (wrapErr "waiting for pod to complete" e))
              [.streamLogsStarted]
          | none =>
            match env.remoteReference with
            | .ok r => runPodDefers env r none [.streamLogsStarted, .waitForLogsCalled]
            | .error e =>
              runPodDefers env "" (some e) [.streamLogsStarted, .waitForLogsCalled]

/-- Embedding of Builder.Build restricted to one artifact: secret setup with
its deferred teardown, then buildArtifactWithKaniko.  A fatalExit from the
inner deferred deletion skips the secret teardown as well (os.Exit). -/
def kanikoSession (env : KanikoEnv) : SessionOutcome × List KEvent :=
  match env.setupSecretErr with
  | some e => (.returned "" (some (wrapErr "setting up secret" e)), [])
  | none =>
    match buildArtifactWithKaniko env with
    | (.fatalExit m, evts) => (.fatalExit m, evts)
    | (.returned r err, evts) => (.returned r err, evts ++ [.secretTeardown])

/-! ## Kaniko workload arguments -/

/-- KanikoCache configuration (latest.KanikoCache): optional cache repo. -/
structure CacheConfig where
  repo : String
deriving DecidableEq

/-- The parts of latest.KanikoBuild that determine the argument list. -/
structure KanikoBuildConfig where
  additionalFlags : List String
  cache : Option CacheConfig
deriving DecidableEq

/-- Embedding of the argument assembly in buildArtifactWithKaniko:
base flags, then AdditionalFlags, then docker.GetBuildArgs output (passed in
as `buildArgs`, an external collaborator), then the cache flags. -/
def kanikoArgs (b : KanikoBuildConfig) (dockerfilePath ctx fqn logLevel : String)
    (buildArgs : List String) : List String :=
  let args := ["--dockerfile=" ++ dockerfilePath, "--context=" ++ ctx,
    "--destination=" ++ fqn, "-v=" ++ logLevel]
  let args := args ++ b.additionalFlags
  let args := args ++ buildArgs
  match b.cache with
  | none => args
  | some c =>
    let args := args ++ ["--cache=true"]
    if c.repo = "" then args else args ++ ["--cache-repo=" ++ c.repo]

/-! ## Local backend dispatch

Embedding of Builder.buildArtifactLocally from pkg/skaffold/build/local.
latest.ArtifactType is a struct of optional sub-structs; the Go switch tests
them for non-nil in source order.  The sub-struct contents are irrelevant to
dispatch (they are only forwarded to the chosen backend oracle), so presence
is modelled with Option Unit. -/

/-- Which optional variant fields of latest.ArtifactType are set. -/
structure ArtifactType where
  dockerArtifact : Option Unit
  bazelArtifact : Option Unit
  jibMavenArtifact : Option Unit
  jibGradleArtifact : Option Unit
deriving DecidableEq

/-- The backend a dispatch delegated to. -/
inductive Backend
  | docker
  | bazel
  | jibMaven
  | jibGradle
deriving DecidableEq

/-- Oracle results of the four local build backends, as Go (string, error)
pairs. -/
structure LocalBuildEnv where
  buildDockerResult : String × Option String
  buildBazelResult : String × Option String
  buildJibMavenResult : String × Option String
  buildJibGradleResult : String × Option String
deriving DecidableEq

/-- Rendering of the ArtifactType struct used in the default-arm error
message; abstracts Go fmt %+v, whose exact text is not load-bearing (the
claim only requires the message to contain "undefined artifact type"). -/
def fmtArtifactType (a : ArtifactType) : String :=
  let f : Option Unit → String := fun o => match o with | none => "<nil>" | some _ => "&\x7b\x7d"
  "DockerArtifact:" ++ f a.dockerArtifact ++ " BazelArtifact:" ++ f a.bazelArtifact ++
    " JibMavenArtifact:" ++ f a.jibMavenArtifact ++ " JibGradleArtifact:" ++ f a.jibGradleArtifact

/-- Embedding of buildArtifactLocally: the variant switch in source order,
returning the Go result together with which backend (if any) was called. -/
def buildArtifactLocally (env : LocalBuildEnv) (a : ArtifactType) :
    (String × Option String) × Option Backend :=
  match a.dockerArtifact with
  | some _ => (env.buildDockerResult, some .docker)
  | none =>
    match a.bazelArtifact with
    | some _ => (env.buildBazelResult, some .bazel)
    | none =>
      match a.jibMavenArtifact with
      | some _ => (env.buildJibMavenResult, some .jibMaven)
      | none =>
        match a.jibGradleArtifact with
        | some _ => (env.buildJibGradleResult, some .jibGradle)
        | none => (("", some ("undefined artifact type: " ++ fmtArtifactType a)), none)

/-! ## Local Docker build

Embedding of Builder.buildDocker (docker.go): CLI/BuildKit path or daemon
path, then the optional push step. -/

/-- Oracles and configuration for one local Docker build. -/
structure LocalDockerEnv where
  useDockerCLI : Bool
  useBuildkit : Bool
  /-- docker.NormalizeDockerfilePath result. -/
  normalizeDockerfilePath : Except String String
  /-- util.RunCmd error for the docker CLI invocation. -/
  runCmdErr : Option String
  /-- localDocker.Build error (daemon path). -/
  daemonBuildErr : Option String
  pushImages : Bool
  /-- localDocker.Push result: the image digest. -/
  pushResult : Except String String
deriving DecidableEq

/-- The tail of buildDocker after a successful build: push and reference
shaping. -/
def pushStep (env : LocalDockerEnv) (fqn : String) : String × Option String :=
  if env.pushImages then
    match env.pushResult with
    | .error e => ("", some (wrapErr "pushing image" e))
    | .ok digest => (fqn ++ "@" ++ digest, none)
  else (fqn, none)

/-- Embedding of Builder.buildDocker. -/
def buildDocker (env : LocalDockerEnv) (fqn : String) : String × Option String :=
  if env.useDockerCLI || env.useBuildkit then
    match env.normalizeDockerfilePath with
    | .error e => ("", some (wrapErr "normalizing dockerfile path" e))
    | .ok _ =>
      match env.runCmdErr with
      | some e => ("", some (wrapErr "running build" e))
      | none => pushStep env fqn
  else
    match env.daemonBuildErr with
    | some e => ("", some (wrapErr "running build" e))
    | none => pushStep env fqn

/-- The taken build path of buildDocker succeeded (the condition under which
control reaches the push step). -/
def dockerBuildSucceeds (env : LocalDockerEnv) : Prop :=
  if env.useDockerCLI || env.useBuildkit then
    (∃ p, env.normalizeDockerfilePath = .ok p) ∧ env.runCmdErr = none
  else env.daemonBuildErr = none

/-! ## Jib project detection

Embedding of ValidateJibConfig from pkg/skaffold/build/jib/init.go.  File
reading and the external build-tool run are oracles; the regexp
`BEGIN JIB JSON\r?\n(\x7b.*\x7d)` with FindAllSubmatch, the backslash
escaping, and json.Unmarshal into the jibJSON struct are embedded. -/

/-- Containment of a character sequence, modelling strings.Contains. -/
def listContains (needle : List Char) : List Char → Bool
  | [] => needle.isEmpty
  | c :: t => needle.isPrefixOf (c :: t) || listContains needle t

/-- The literal marker preceding each JSON payload. -/
def beginMarker : List Char := "BEGIN JIB JSON".toList

/-- Attempt the regexp `BEGIN JIB JSON\r?\n(\x7b.*\x7d)` at the start of `s`.
On success, returns the capture group (from the opening brace to the last
closing brace before the next newline, matching the greedy `.*`) and the
remainder of the input after the whole match. -/
def jibMatchAt (s : List Char) : Option (List Char × List Char) :=
  if beginMarker.isPrefixOf s then
    let t := s.drop beginMarker.length
    let t := if t.head? = some '\x0d' then t.tail else t
    match t with
    | '\n' :: u =>
      match u with
      | '\x7b' :: _ =>
        let line := u.takeWhile (fun c => c ≠ '\n')
        let capture := (line.reverse.dropWhile (fun c => c ≠ '\x7d')).reverse
        if capture.isEmpty then none
        else some (capture, u.drop capture.length)
      | _ => none
    | _ => none
  else none

/-- Leftmost-first non-overlapping scan of FindAllSubmatch: try a match at
each position, and continue after the end of each match.  The fuel equals the
input length; every step either advances one character or consumes a whole
match (which is never empty), so the fuel never runs out. -/
def findJibMatchesAux : Nat → List Char → List (List Char)
  | 0, _ => []
  | _ + 1, [] => []
  | n + 1, c :: rest =>
    match jibMatchAt (c :: rest) with
    | some (cap, remainder) => cap :: findJibMatchesAux n remainder
    | none => findJibMatchesAux n rest

/-- All capture groups of the marker regexp, in order of appearance. -/
def findJibMatches (s : List Char) : List (List Char) :=
  findJibMatchesAux s.length s

/-- Embedding of bytes.Replace(match, backslash, double backslash, -1):
every single backslash character becomes two. -/
def escapeBackslashes : List Char → List Char
  | [] => []
  | c :: rest =>
    if c = '\\' then '\\' :: '\\' :: escapeBackslashes rest
    else c :: escapeBackslashes rest

/-! ### JSON parsing (model of encoding/json.Unmarshal)

A value parser for the JSON grammar as Go's decoder accepts it: the six value
forms, string escapes, no raw control characters inside strings, numbers per
the JSON grammar, and nothing but whitespace after the top-level value.
Number contents do not matter to the jibJSON struct (a number where a string
is expected is a decode error), so numbers carry no payload. -/

/-- Parsed JSON values. -/
inductive JsonValue
  | str (s : List Char)
  | num
  | jsonBool (b : Bool)
  | jsonNull
  | obj (members : List (List Char × JsonValue))
  | arr (elems : List JsonValue)

/-- JSON whitespace. -/
def isJsonWs (c : Char) : Bool := c = ' ' || c = '\t' || c = '\n' || c = '\x0d'

/-- Skip JSON whitespace. -/
def skipWs (s : List Char) : List Char := s.dropWhile isJsonWs

/-- Hexadecimal digit test for \u escapes. -/
def isHexDigit (c : Char) : Bool :=
  c.isDigit || ('a' ≤ c && c ≤ 'f') || ('A' ≤ c && c ≤ 'F')

/-- Value of a hexadecimal digit. -/
def hexVal (c : Char) : Nat :=
  if c.isDigit then c.toNat - '0'.toNat
  else if 'a' ≤ c && c ≤ 'f' then c.toNat - 'a'.toNat + 10
  else c.toNat - 'A'.toNat + 10

/-- Decode the character named by a single-character escape. -/
def escDecode (e : Char) : Char :=
  if e = 'b' then '\x08'
  else if e = 'f' then '\x0c'
  else if e = 'n' then '\n'
  else if e = 'r' then '\x0d'
  else if e = 't' then '\t'
  else e

/-- Parse the body of a JSON string after the opening quote; returns the
decoded contents and the input after the closing quote.  The fuel bounds the
number of consumed characters, so input length plus one is always enough. -/
def parseStringBody : Nat → List Char → Option (List Char × List Char)
  | 0, _ => none
  | _ + 1, [] => none
  | n + 1, c :: rest =>
    if c = '"' then some ([], rest)
    else if c = '\\' then
      match rest with
      | [] => none
      | e :: rest2 =>
        if e = '"' || e = '\\' || e = '/' || e = 'b' || e = 'f' || e = 'n' || e = 'r' || e = 't' then
          (parseStringBody n rest2).map (fun p => (escDecode e :: p.1, p.2))
        else if e = 'u' then
          match rest2 with
          | h1 :: h2 :: h3 :: h4 :: rest3 =>
            if isHexDigit h1 && isHexDigit h2 && isHexDigit h3 && isHexDigit h4 then
              (parseStringBody n rest3).map
                (fun p => (Char.ofNat (((hexVal h1 * 16 + hexVal h2) * 16 + hexVal h3) * 16 + hexVal h4) :: p.1, p.2))
            else none
          | _ => none
        else none
    else if c.toNat < 32 then none
    else (parseStringBody n rest).map (fun p => (c :: p.1, p.2))

/-- Parse the optional fraction and exponent of a JSON number; returns the
remainder. -/
def parseFracExp (s : List Char) : Option (List Char) :=
  let afterFrac : Option (List Char) :=
    match s with
    | '.' :: r =>
      if (r.head?.map Char.isDigit).getD false then some (r.dropWhile Char.isDigit) else none
    | _ => some s
  match afterFrac with
  | none => none
  | some t =>
    match t with
    | [] => some []
    | e :: r =>
      if e = 'e' || e = 'E' then
        let r2 := match r with | '+' :: x => x | '-' :: x => x | _ => r
        if (r2.head?.map Char.isDigit).getD false then some (r2.dropWhile Char.isDigit)
        else none
      else some (e :: r)

/-- Parse a JSON number (grammar as in RFC 8259); returns the remainder. -/
def parseNumber (s : List Char) : Option (List Char) :=
  let s1 := match s with | '-' :: r => r | _ => s
  match s1 with
  | [] => none
  | c :: r =>
    if c = '0' then parseFracExp r
    else if c.isDigit then parseFracExp (r.dropWhile Char.isDigit)
    else none

mutual

/-- Parse one JSON value; returns the value and the remainder.  Fuel bounds
the nesting depth, which never exceeds the input length. -/
def parseValue : Nat → List Char → Option (JsonValue × List Char)
  | 0, _ => none
  | n + 1, s =>
    match skipWs s with
    | [] => none
    | c :: rest =>
      if c = '"' then
        (parseStringBody (rest.length + 1) rest).map (fun p => (JsonValue.str p.1, p.2))
      else if c = '\x7b' then
        match skipWs rest with
        | '\x7d' :: rest2 => some (.obj [], rest2)
        | _ => (parseMemberList n rest).map (fun p => (JsonValue.obj p.1, p.2))
      else if c = '[' then
        match skipWs rest with
        | ']' :: rest2 => some (.arr [], rest2)
        | _ => (parseElemList n rest).map (fun p => (JsonValue.arr p.1, p.2))
      else if c = 't' then
        if "rue".toList.isPrefixOf rest then some (.jsonBool true, rest.drop 3) else none
      else if c = 'f' then
        if "alse".toList.isPrefixOf rest then some (.jsonBool false, rest.drop 4) else none
      else if c = 'n' then
        if "ull".toList.isPrefixOf rest then some (.jsonNull, rest.drop 3) else none
      else if c = '-' || c.isDigit then
        (parseNumber (c :: rest)).map (fun rest2 => (JsonValue.num, rest2))
      else none

/-- Parse a non-empty member list of a JSON object (after the opening brace);
stops after the closing brace. -/
def parseMemberList : Nat → List Char → Option (List (List Char × JsonValue) × List Char)
  | 0, _ => none
  | n + 1, s =>
    match skipWs s with
    | '"' :: rest =>
      match parseStringBody (rest.length + 1) rest with
      | none => none
      | some (key, rest2) =>
        match skipWs rest2 with
        | ':' :: rest3 =>
          match parseValue n rest3 with
          | none => none
          | some (v, rest4) =>
            match skipWs rest4 with
            | ',' :: rest5 => (parseMemberList n rest5).map (fun p => ((key, v) :: p.1, p.2))
            | '\x7d' :: rest5 => some ([(key, v)], rest5)
            | _ => none
        | _ => none
    | _ => none

/-- Parse a non-empty element list of a JSON array (after the opening
bracket); stops after the closing bracket. -/
def parseElemList : Nat → List Char → Option (List JsonValue × List Char)
  | 0, _ => none
  | n + 1, s =>
    match parseValue n s with
    | none => none
    | some (v, rest) =>
      match skipWs rest with
      | ',' :: rest2 => (parseElemList n rest2).map (fun p => (v :: p.1, p.2))
      | ']' :: rest2 => some ([v], rest2)
      | _ => none

end

/-- The decode target, mirroring the jibJSON struct of init.go. -/
structure jibJSON where
  image : List Char
  project : List Char
deriving DecidableEq

/-- Case-normalised key, modelling Go's case-insensitive field matching
(the struct's json tags are lowercase). -/
def lowerKey (k : List Char) : List Char := k.map Char.toLower

/-- Apply one object member to the struct being decoded, failing on a type
mismatch and ignoring unknown keys; later duplicates overwrite. -/
def applyField (pj : jibJSON) (kv : List Char × JsonValue) : Option jibJSON :=
  if lowerKey kv.1 = "image".toList then
    match kv.2 with
    | .str s => some { pj with image := s }
    | _ => none
  else if lowerKey kv.1 = "project".toList then
    match kv.2 with
    | .str s => some { pj with project := s }
    | _ => none
  else some pj

/-- Model of json.Unmarshal(data, ptr to jibJSON): one top-level value
followed only by whitespace; an object decoded field by field, or null
leaving the zero value; anything else is a decode error. -/
def unmarshalJib (s : List Char) : Option jibJSON :=
  match parseValue (s.length + 1) s with
  | none => none
  | some (v, rest) =>
    if (skipWs rest).isEmpty then
      match v with
      | .jsonNull => some ⟨[], []⟩
      | .obj fields => fields.foldlM applyField ⟨[], []⟩
      | _ => none
    else none

/-! ### ValidateJibConfig -/

/-- PluginType of init.go: the two recognised build-tool families. -/
inductive PluginType
  | jibMaven
  | jibGradle
deriving DecidableEq

/-- The Jib struct of init.go.  BuilderName is PluginName(builderType); the
PluginName string mapping lives outside the embedded file, so the family is
kept as the PluginType itself. -/
structure Jib where
  builderType : PluginType
  image : List Char
  filePath : List Char
  project : List Char
deriving DecidableEq

/-- What one detection run did: its results, whether the external build tool
was invoked, and whether a parse-failure warning was logged.  The Go function
returns only []Jib; it has no error channel to the caller. -/
structure JibDetectOutcome where
  results : List Jib
  toolInvoked : Bool
  warned : Bool
deriving DecidableEq

/-- Maven marker that must appear in a pom.xml before the tool is run. -/
def mavenSearchString : List Char := "<artifactId>jib-maven-plugin</artifactId>".toList

/-- Gradle marker that must appear in a build.gradle before the tool is run. -/
def gradleSearchString : List Char := "com.google.cloud.tools.jib".toList

/-- The suffix switch at the top of ValidateJibConfig: the family and its
required marker substring, or none for unrecognised file names. -/
def jibFamily (path : List Char) : Option (PluginType × List Char) :=
  if "pom.xml".toList.isSuffixOf path then some (.jibMaven, mavenSearchString)
  else if "build.gradle".toList.isSuffixOf path || "build.gradle.kts".toList.isSuffixOf path then
    some (.jibGradle, gradleSearchString)
  else none

/-- The parse loop over the regexp matches: escape backslashes, unmarshal,
and build one Jib per match; any unmarshal failure discards everything. -/
def parseMatchResults (bt : PluginType) (path : List Char) :
    List (List Char) → Option (List Jib)
  | [] => some []
  | m :: rest =>
    match unmarshalJib (escapeBackslashes m) with
    | none => none
    | some pj =>
      (parseMatchResults bt path rest).map
        (fun rs => ⟨bt, pj.image, path, pj.project⟩ :: rs)

/-- Embedding of ValidateJibConfig.  `fileContent` is the ioutil.ReadFile
result (none on read error) and `toolOutput` the util.RunCmdOut result (none
on invocation error); the wrapper-script preference only changes which
executable runs, not the outcome, so it is not modelled. -/
def validateJibConfig (path : List Char) (fileContent : Option (List Char))
    (toolOutput : Option (List Char)) : JibDetectOutcome :=
  match jibFamily path with
  | none => ⟨[], false, false⟩
  | some (bt, search) =>
    match fileContent with
    | none => ⟨[], false, false⟩
    | some content =>
      if listContains search content then
        match toolOutput with
        | none => ⟨[], true, false⟩
        | some out =>
          match findJibMatches out with
          | [] => ⟨[], true, false⟩
          | m :: ms =>
            match parseMatchResults bt path (m :: ms) with
            | none => ⟨[], true, true⟩
            | some rs => ⟨rs, true, false⟩
      else ⟨[], false, false⟩

/-! ## Concrete instances used in counterexamples and witnesses -/

/-- Session oracles where every external call succeeds. -/
def envAllOk : KanikoEnv :=
  ⟨none, .ok "gs://bucket/ctx", none, none, none, none, none, .ok "gcr.io/img:tag@sha256:ab12"⟩

/-- A session whose only failure is the deferred pod deletion. -/
def envDeleteFail : KanikoEnv := { envAllOk with deletePodErr := some "connection refused" }

/-- A session whose pod creation fails. -/
def envCreatePodFail : KanikoEnv := { envAllOk with createPodErr := some "boom" }

/-- A session whose completion wait fails. -/
def envWaitFail : KanikoEnv := { envAllOk with waitErr := some "timed out" }

/-- Sample backend oracle results for dispatch. -/
def localEnvSample : LocalBuildEnv :=
  ⟨("docker-ref", none), ("bazel-ref", none), ("maven-ref", none), ("gradle-ref", none)⟩

/-- An artifact with no recognised variant set. -/
def artifactNoVariant : ArtifactType := ⟨none, none, none, none⟩

/-- A daemon-path local Docker build with pushing enabled. -/
def dockerEnvPush : LocalDockerEnv :=
  ⟨false, false, .ok "ws/Dockerfile", none, none, true, .ok "sha256:abcd"⟩

/-- Tool output with two well-formed marker blocks. -/
def jibOutputTwoBlocks : List Char :=
  "BEGIN JIB JSON\n\x7b\"image\":\"a\",\"project\":\"p1\"\x7d\nBEGIN JIB JSON\n\x7b\"image\":\"b\",\"project\":\"p2\"\x7d".toList

/-- Tool output whose first marker block parses and whose second does not. -/
def jibOutputWithBadBlock : List Char :=
  "BEGIN JIB JSON\n\x7b\"image\":\"a\",\"project\":\"p1\"\x7d\nBEGIN JIB JSON\n\x7bnot json\x7d".toList

/-- A payload whose image value holds the legitimate JSON escape
backslash-backslash (decoding to a single backslash between a and b). -/
def backslashPayload : List Char :=
  "\x7b\"image\":\"a\\\\b\",\"project\":\"p\"\x7d".toList

/-- A payload whose image value holds the legitimate JSON escape
backslash-quote (decoding to a double quote between a and b). -/
def quotePayload : List Char :=
  "\x7b\"image\":\"a\\\"b\",\"project\":\"p\"\x7d".toList

/-! ## Theorems -/

/-- C1: at the failing input — pod deletion fails with "connection refused"
after an otherwise successful build — the session terminates the process via
logrus.Fatalf instead of returning the primary build result, and the
deferred context cleanup and secret teardown are skipped.  This contradicts
the claim (and the spec), which require the primary result to be reported
with the deletion failure as a secondary signal and the remaining cleanups
still running. -/
theorem kaniko_deleteFailure_exits_process :
    (kanikoSession envDeleteFail).1 = SessionOutcome.fatalExit "deleting pod: connection refused" ∧
    KEvent.contextCleanup ∉ (kanikoSession envDeleteFail).2 ∧
    KEvent.secretTeardown ∉ (kanikoSession envDeleteFail).2 := by decide

/-- C2 counterexample: when pod creation fails with "boom", the reported
error is wrapped as "creating kaniko pod", not the claimed "creating pod". -/
theorem kaniko_createPod_wrap_counterexample :
    (kanikoSession envCreatePodFail).1 =
      SessionOutcome.returned "" (some "creating kaniko pod: boom") ∧
    "creating kaniko pod: boom" ≠ "creating pod: boom" := by decide

/-- C2 (amended): the first failing lifecycle phase aborts the session and is
wrapped with its phase name — "setting up secret", "setting up build
context", "creating kaniko pod", "modifying kaniko pod", or "waiting for pod
to complete". -/
theorem kanikoSession_phase_wrapping (env : KanikoEnv) (e : String) :
    (env.setupSecretErr = some e →
      (kanikoSession env).1 = .returned "" (some (wrapErr "setting up secret" e))) ∧
    (env.setupSecretErr = none → env.setupContext = .error e →
      (kanikoSession env).1 = .returned "" (some (wrapErr "setting up build context" e))) ∧
    (env.setupSecretErr = none → (∃ c, env.setupContext = .ok c) → env.clientsetErr = none →
      env.createPodErr = some e →
      (kanikoSession env).1 = .returned "" (some (wrapErr "creating kaniko pod" e))) ∧
    (env.setupSecretErr = none → (∃ c, env.setupContext = .ok c) → env.clientsetErr = none →
      env.createPodErr = none → env.modifyPodErr = some e → env.deletePodErr = none →
      (kanikoSession env).1 = .returned "" (some (wrapErr "modifying kaniko pod" e))) ∧
    (env.setupSecretErr = none → (∃ c, env.setupContext = .ok c) → env.clientsetErr = none →
      env.createPodErr = none → env.modifyPodErr = none → env.waitErr = some e →
      env.deletePodErr = none →
      (kanikoSession env).1 = .returned "" (some (wrapErr "waiting for pod to complete" e))) := by
  refine ⟨fun h1 => ?_, fun h1 h2 => ?_, fun h1 h2 h3 h4 => ?_,
    fun h1 h2 h3 h4 h5 h6 => ?_, fun h1 h2 h3 h4 h5 h6 h7 => ?_⟩
  · simp [kanikoSession, h1]
  · simp [kanikoSession, buildArtifactWithKaniko, h1, h2]
  · obtain ⟨c, hc⟩ := h2
    simp [kanikoSession, buildArtifactWithKaniko, h1, hc, h3, h4]
  · obtain ⟨c, hc⟩ := h2
    simp [kanikoSession, buildArtifactWithKaniko, runPodDefers, h1, hc, h3, h4, h5, h6]
  · obtain ⟨c, hc⟩ := h2
    simp [kanikoSession, buildArtifactWithKaniko, runPodDefers, h1, hc, h3, h4, h5, h6, h7]

/-- C2 witness: the amended wrapping theorem applied to the concrete
pod-creation failure. -/
theorem kanikoSession_phase_wrapping_witness :
    (kanikoSession envCreatePodFail).1 =
      SessionOutcome.returned "" (some (wrapErr "creating kaniko pod" "boom")) :=
  (kanikoSession_phase_wrapping envCreatePodFail "boom").2.2.1 rfl
    ⟨"gs://bucket/ctx", rfl⟩ rfl rfl

/-- C3 counterexample: when the completion wait fails, the session returns
its result even though the log-stream copy was started and never drained —
waitForLogs is not called on that exit path, refuting the claim that both
tasks reach a finished state on every exit path. -/
theorem kaniko_waitError_skips_log_drain :
    (kanikoSession envWaitFail).1 =
      SessionOutcome.returned "" (some "waiting for pod to complete: timed out") ∧
    KEvent.streamLogsStarted ∈ (kanikoSession envWaitFail).2 ∧
    KEvent.waitForLogsCalled ∉ (kanikoSession envWaitFail).2 := by decide

/-- C3 (amended): when the completion wait succeeds the log copy is drained
before the session returns (and before the cleanups), but when the wait
returns an error the session returns without draining the log copy. -/
theorem kanikoSession_log_drain (env : KanikoEnv)
    (h1 : env.setupSecretErr = none) (h2 : ∃ c, env.setupContext = .ok c)
    (h3 : env.clientsetErr = none) (h4 : env.createPodErr = none)
    (h5 : env.modifyPodErr = none) (h6 : env.deletePodErr = none) :
    (env.waitErr = none →
      (kanikoSession env).2 =
        [.streamLogsStarted, .waitForLogsCalled, .podDeleteAttempted,
         .contextCleanup, .secretTeardown]) ∧
    (∀ e, env.waitErr = some e → KEvent.waitForLogsCalled ∉ (kanikoSession env).2) := by
  obtain ⟨c, hc⟩ := h2
  constructor
  · intro hw
    cases hr : env.remoteReference <;>
      simp [kanikoSession, buildArtifactWithKaniko, runPodDefers, h1, hc, h3, h4, h5, h6, hw, hr]
  · intro e hw
    simp [kanikoSession, buildArtifactWithKaniko, runPodDefers, h1, hc, h3, h4, h5, h6, hw]

/-- C3 witness: the amended log-drain theorem applied to the all-successful
session. -/
theorem kanikoSession_log_drain_witness :
    (kanikoSession envAllOk).2 =
      [KEvent.streamLogsStarted, KEvent.waitForLogsCalled, KEvent.podDeleteAttempted,
       KEvent.contextCleanup, KEvent.secretTeardown] :=
  (kanikoSession_log_drain envAllOk rfl ⟨"gs://bucket/ctx", rfl⟩ rfl rfl rfl rfl).1 rfl

/-- C4: the workload argument list is, in order, the dockerfile, context,
destination and verbosity flags, then the user-configured additional flags,
then the build-arg flags, then — only when caching is enabled — "--cache=true"
followed by "--cache-repo=..." only when a cache repo is configured. -/
theorem kanikoArgs_shape (b : KanikoBuildConfig) (d c f v : String)
    (buildArgs : List String) :
    kanikoArgs b d c f v buildArgs =
      ["--dockerfile=" ++ d, "--context=" ++ c, "--destination=" ++ f, "-v=" ++ v]
        ++ b.additionalFlags ++ buildArgs
        ++ (match b.cache with
            | none => []
            | some cc => "--cache=true" :: (if cc.repo = "" then [] else ["--cache-repo=" ++ cc.repo])) := by
  cases hcache : b.cache with
  | none => simp [kanikoArgs, hcache]
  | some cc => by_cases hr : cc.repo = "" <;> simp [kanikoArgs, hcache, hr]

/-- C5: dispatch with no recognised variant returns an empty reference and an
error whose message contains "undefined artifact type" and calls no backend;
dispatch with a recognised variant delegates to exactly that variant's
backend and returns its result. -/
theorem buildArtifactLocally_dispatch (env : LocalBuildEnv) (a : ArtifactType) :
    (a.dockerArtifact = none → a.bazelArtifact = none → a.jibMavenArtifact = none →
      a.jibGradleArtifact = none →
      buildArtifactLocally env a =
        (("", some ("undefined artifact type: " ++ fmtArtifactType a)), none)) ∧
    (a.dockerArtifact = some () →
      buildArtifactLocally env a = (env.buildDockerResult, some .docker)) ∧
    (a.dockerArtifact = none → a.bazelArtifact = some () →
      buildArtifactLocally env a = (env.buildBazelResult, some .bazel)) ∧
    (a.dockerArtifact = none → a.bazelArtifact = none → a.jibMavenArtifact = some () →
      buildArtifactLocally env a = (env.buildJibMavenResult, some .jibMaven)) ∧
    (a.dockerArtifact = none → a.bazelArtifact = none → a.jibMavenArtifact = none →
      a.jibGradleArtifact = some () →
      buildArtifactLocally env a = (env.buildJibGradleResult, some .jibGradle)) := by
  refine ⟨fun h1 h2 h3 h4 => ?_, fun h1 => ?_, fun h1 h2 => ?_,
    fun h1 h2 h3 => ?_, fun h1 h2 h3 h4 => ?_⟩ <;>
    simp_all [buildArtifactLocally]

/-- C5 witness: the dispatch theorem applied to an artifact with no variant
set. -/
theorem buildArtifactLocally_dispatch_witness :
    buildArtifactLocally localEnvSample artifactNoVariant =
      (("", some ("undefined artifact type: " ++ fmtArtifactType artifactNoVariant)), none) :=
  (buildArtifactLocally_dispatch localEnvSample artifactNoVariant).1 rfl rfl rfl rfl

/-- C6: a successful local Docker build returns fqn@digest when pushing is
enabled (digest being the push result) and exactly fqn when pushing is
disabled. -/
theorem buildDocker_reference (env : LocalDockerEnv) (fqn digest : String)
    (hb : dockerBuildSucceeds env) :
    (env.pushImages = true → env.pushResult = .ok digest →
      buildDocker env fqn = (fqn ++ "@" ++ digest, none)) ∧
    (env.pushImages = false → buildDocker env fqn = (fqn, none)) := by
  cases hcli : env.useDockerCLI || env.useBuildkit with
  | true =>
    simp [dockerBuildSucceeds, hcli] at hb
    obtain ⟨⟨p, hnorm⟩, hrun⟩ := hb
    constructor
    · intro hp hr
      simp [buildDocker, pushStep, hcli, hnorm, hrun, hp, hr]
    · intro hp
      simp [buildDocker, pushStep, hcli, hnorm, hrun, hp]
  | false =>
    simp [dockerBuildSucceeds, hcli] at hb
    constructor
    · intro hp hr
      simp [buildDocker, pushStep, hcli, hb, hp, hr]
    · intro hp
      simp [buildDocker, pushStep, hcli, hb, hp]

/-- C6 witness: the reference-shape theorem applied to a successful
daemon-path build with pushing enabled. -/
theorem buildDocker_reference_witness :
    buildDocker dockerEnvPush "img:tag" = ("img:tag@sha256:abcd", none) :=
  (buildDocker_reference dockerEnvPush "img:tag" "sha256:abcd" rfl).1 rfl rfl

/-- C7: a file whose name ends in none of the recognised build-file suffixes,
or whose contents lack the family's required marker substring, yields zero
results and the external build tool is not invoked. -/
theorem validateJibConfig_gate (path content : List Char) (toolOutput : Option (List Char)) :
    ("pom.xml".toList.isSuffixOf path = false →
      "build.gradle".toList.isSuffixOf path = false →
      "build.gradle.kts".toList.isSuffixOf path = false →
      validateJibConfig path (some content) toolOutput =
        { results := [], toolInvoked := false, warned := false }) ∧
    (∀ bt search, jibFamily path = some (bt, search) → listContains search content = false →
      validateJibConfig path (some content) toolOutput =
        { results := [], toolInvoked := false, warned := false }) := by
  constructor
  · intro h1 h2 h3
    have hfam : jibFamily path = none := by
      simp only [jibFamily, h1, h2, h3]
      rfl
    simp [validateJibConfig, hfam]
  · intro bt search hfam hsearch
    simp [validateJibConfig, hfam, hsearch]

/-- C7 witness: the gate theorem applied to a file with an unrecognised
name. -/
theorem validateJibConfig_gate_witness :
    validateJibConfig "README.md".toList (some mavenSearchString) (some []) =
      { results := [], toolInvoked := false, warned := false } :=
  (validateJibConfig_gate "README.md".toList mavenSearchString (some [])).1
    (by decide) (by decide) (by decide)

/-- C8: tool output holding the marker blocks for a/p1 and b/p2 yields
exactly two results, with image a and project p1 first and image b and
project p2 second, in order of appearance. -/
theorem validateJibConfig_two_blocks :
    validateJibConfig "pom.xml".toList (some mavenSearchString) (some jibOutputTwoBlocks) =
      { results := [⟨.jibMaven, "a".toList, "pom.xml".toList, "p1".toList⟩,
                    ⟨.jibMaven, "b".toList, "pom.xml".toList, "p2".toList⟩],
        toolInvoked := true, warned := false } := by decide

/-- Helper: if any regexp match's escaped payload fails to unmarshal, the
whole parse loop yields nothing. -/
theorem parseMatchResults_none_of_fail (bt : PluginType) (path : List Char)
    (ms : List (List Char)) (hf : ∃ m ∈ ms, unmarshalJib (escapeBackslashes m) = none) :
    parseMatchResults bt path ms = none := by
  induction ms with
  | nil =>
    obtain ⟨m, hm, _⟩ := hf
    exact absurd hm (List.not_mem_nil m)
  | cons m rest ih =>
    obtain ⟨m', hm', hfail⟩ := hf
    rcases List.mem_cons.mp hm' with h | h
    · subst h
      simp [parseMatchResults, hfail]
    · cases hu : unmarshalJib (escapeBackslashes m) with
      | none => simp [parseMatchResults, hu]
      | some pj => simp [parseMatchResults, hu, ih ⟨m', h, hfail⟩]

/-- C9: when at least one marker block's escaped payload fails to unmarshal,
detection returns zero results for the whole file (discarding blocks that
parsed successfully) and logs a warning; the function's type has no error
channel to the caller. -/
theorem validateJibConfig_parse_failure (path content out : List Char)
    (bt : PluginType) (search : List Char)
    (hfam : jibFamily path = some (bt, search))
    (hsearch : listContains search content = true)
    (hfail : ∃ m ∈ findJibMatches out, unmarshalJib (escapeBackslashes m) = none) :
    validateJibConfig path (some content) (some out) =
      { results := [], toolInvoked := true, warned := true } := by
  have hpm := parseMatchResults_none_of_fail bt path (findJibMatches out) hfail
  cases hms : findJibMatches out with
  | nil =>
    obtain ⟨m, hm, _⟩ := hfail
    rw [hms] at hm
    exact absurd hm (List.not_mem_nil m)
  | cons m ms =>
    rw [hms] at hpm
    simp [validateJibConfig, hfam, hsearch, hms, hpm]

/-- C9 witness: the parse-failure theorem applied to output whose first block
parses and whose second block is malformed. -/
theorem validateJibConfig_parse_failure_witness :
    validateJibConfig "pom.xml".toList (some mavenSearchString) (some jibOutputWithBadBlock) =
      { results := [], toolInvoked := true, warned := true } :=
  validateJibConfig_parse_failure "pom.xml".toList mavenSearchString jibOutputWithBadBlock
    PluginType.jibMaven mavenSearchString (by decide) (by decide)
    ⟨"\x7bnot json\x7d".toList, by decide, by decide⟩

/-- C10 counterexample: a payload whose image value holds the legitimate JSON
escape backslash-backslash still unmarshals after the backslash doubling —
with a corrupted, doubled value — and detection returns one result, not
zero, refuting the claim that every payload with a legitimate backslash
escape fails to unmarshal. -/
theorem jib_backslash_double_counterexample :
    unmarshalJib (escapeBackslashes backslashPayload) =
      some ⟨"a\\\\b".toList, "p".toList⟩ ∧
    validateJibConfig "pom.xml".toList (some mavenSearchString)
      (some ("BEGIN JIB JSON\n".toList ++ backslashPayload)) =
      { results := [⟨.jibMaven, "a\\\\b".toList, "pom.xml".toList, "p".toList⟩],
        toolInvoked := true, warned := false } := by decide

/-- C10 (amended): every backslash in a captured payload is doubled before
unmarshalling; a payload containing the escape backslash-quote becomes
invalid JSON, its unmarshal fails, and detection returns zero results with a
warning, while a payload containing the escape backslash-backslash remains
valid JSON and unmarshals to a value with doubled backslashes — value
corruption, not a parse failure. -/
theorem jib_backslash_escaping_amended :
    (∀ s : List Char, escapeBackslashes s =
      s.flatMap (fun c => if c = '\\' then ['\\', '\\'] else [c])) ∧
    unmarshalJib quotePayload = some ⟨"a\"b".toList, "p".toList⟩ ∧
    validateJibConfig "pom.xml".toList (some mavenSearchString)
      (some ("BEGIN JIB JSON\n".toList ++ quotePayload)) =
      { results := [], toolInvoked := true, warned := true } ∧
    unmarshalJib backslashPayload = some ⟨"a\\b".toList, "p".toList⟩ ∧
    unmarshalJib (escapeBackslashes backslashPayload) =
      some ⟨"a\\\\b".toList, "p".toList⟩ := by
  refine ⟨fun s => ?_, by decide, by decide, by decide, by decide⟩
  induction s with
  | nil => rfl
  | cons c rest ih => by_cases h : c = '\\' <;> simp [escapeBackslashes, h, ih]

end Skaffold
